import Mathlib

/-!
Verification development for the WhatsApp webhook ingestion pipeline
(`backend/src/middleware/errorHandler.js`: class `WebhookProcessor` plus the
phone/text utilities appended to the same file, and the mongoose schemas in
`backend/src/models/Message.js` / `backend/src/models/Contact.js`).

The JavaScript is embedded shallowly:

* `null`/`undefined`/missing string fields become `Option String`; the JS
  truthiness test `if (x)` on such a field becomes `strTruthy` (a string is
  falsy exactly when it is absent or empty).
* The two mongo collections (`messages`, `contacts`) plus the mirror
  collection `processed_messages` become lists inside a `Store` record;
  `findOne` is first-match lookup, inserts append, and the unique index on
  `messageId` / `waId` is modelled by the duplicate check the code performs.
* `async` storage calls are sequentialized in program order (the batch
  workers only touch distinct `messageId` keys through single-key upserts).
* Wall-clock reads (`Date.now()`) and `Math.random() > 0.5` are passed in as
  the explicit parameters `nowTs` / `rand`.
* Dates are modelled as `Option Nat` (milliseconds); an invalid date (NaN
  input to `parseInt`) is modelled as `none`.
* Thrown exceptions become `Except String`; a processing step that mutates
  the store before throwing returns the mutated store next to the error,
  mirroring the fact that earlier awaited writes are already durable.
-/

/-! ## String utilities (JS semantics helpers) -/

/-- JS truthiness for a nullable string: `null`, `undefined` and `""` are falsy. -/
def strTruthy : Option String → Bool
  | none => false
  | some s => s ≠ ""

/-- `x || y` on nullable strings: keep `x` when truthy, else `y`. -/
def jsOr (x y : Option String) : Option String :=
  if strTruthy x then x else y

/-- `x || d` on an optional string with a plain default. -/
def jsOrD (x : Option String) (d : String) : String :=
  match x with
  | some s => if s = "" then d else s
  | none => d

/-- `str.replace(/\D/g, '')`: keep only the decimal digits. -/
def digitsOnly (s : String) : String :=
  String.mk (s.data.filter Char.isDigit)

/-- `str.startsWith(p)` (modelled over the character list). -/
def strStartsWith (s p : String) : Bool :=
  decide (s.data.take p.data.length = p.data)

/-- `str.toLowerCase()` (over the character list). -/
def strToLower (s : String) : String :=
  String.mk (s.data.map Char.toLower)

/-- Substring occurrence at the head of a character list, scanned along the
list: models `str.includes(p)`. -/
def listHasSub (pat : List Char) : List Char → Bool
  | [] => pat.isEmpty
  | c :: cs => (decide ((c :: cs).take pat.length = pat)) || listHasSub pat cs

/-- `str.includes(p)`. -/
def strContains (s p : String) : Bool :=
  listHasSub p.data s.data

/-- `str.slice(-n)`: the last `n` characters (the whole string when shorter). -/
def lastChars (n : Nat) (s : String) : String :=
  String.mk (s.data.drop (s.data.length - n))

/-- `parseInt` on a webhook timestamp string: leading decimal digits after
optional spaces; `none` models `NaN`. (Signs never occur in the payloads.) -/
def jsParseDigits (s : String) : Option Nat :=
  let ds := (s.data.dropWhile (fun c => c = ' ')).takeWhile Char.isDigit
  if ds.isEmpty then none
  else some (ds.foldl (fun acc c => acc * 10 + (c.toNat - 48)) 0)

/-- `new Date(parseInt(ts) * 1000)` for a nullable timestamp string, in
milliseconds; `none` models an invalid date. -/
def jsParseTs : Option String → Option Nat
  | none => none
  | some s => (jsParseDigits s).map (· * 1000)

/-! ## Phone utilities (`utils/helpers.js` section of the source file) -/

/-- `formatPhoneNumber(phoneNumber, defaultCountry = 'IN')` at the default
country: strip non-digits and put the country code `"91"` in front of a bare
10-digit number; falsy input gives `null`. The `'1'`-specific branch of the
source is kept although it is dead for the `'IN'` default. -/
def formatPhoneNumber (phoneNumber : Option String) : Option String :=
  match phoneNumber with
  | none => none
  | some s =>
    if s = "" then none
    else
      let cleaned := digitsOnly s
      let cc := "91"
      if ¬ strStartsWith cleaned cc ∧ cleaned.length = 10 then some (cc ++ cleaned)
      else if cc = "1" ∧ cleaned.length = 10 then some ("1" ++ cleaned)
      else some cleaned

/-- `isValidWaId`: 10–15 digits, not starting with `0`, and none of the
hard-coded junk patterns (all ones, all zeros, all nines, `12345…`, `11111…`). -/
def isValidWaId (waId : Option String) : Bool :=
  match waId with
  | none => false
  | some s =>
    if s = "" then false
    else
      let cleaned := digitsOnly s
      let headNonzero : Bool :=
        match cleaned.data with
        | [] => false
        | c :: _ => c ≠ '0'
      let basic : Bool :=
        decide (10 ≤ cleaned.length) && decide (cleaned.length ≤ 15) && headNonzero
      let junk : Bool :=
        (cleaned.data.all (fun c => c = '1') && decide (10 ≤ cleaned.length)) ||
        (cleaned.data.all (fun c => c = '0') && !cleaned.data.isEmpty) ||
        (cleaned.data.all (fun c => c = '9') && decide (10 ≤ cleaned.length)) ||
        strStartsWith cleaned "12345" ||
        strStartsWith cleaned "11111"
      basic && !junk

/-- Split a character list into its maximal whitespace-free runs. -/
def wordsAux : List Char → List Char → List (List Char)
  | cur, [] => if cur.isEmpty then [] else [cur.reverse]
  | cur, c :: cs =>
    if c.isWhitespace then
      if cur.isEmpty then wordsAux [] cs else cur.reverse :: wordsAux [] cs
    else wordsAux (c :: cur) cs

/-- Join words with single spaces. -/
def joinWords : List (List Char) → List Char
  | [] => []
  | [w] => w
  | w :: ws => w ++ ' ' :: joinWords ws

/-- `sanitizeMessageText`: trim, collapse every whitespace run to one space
(which already removes all line breaks, making the source's second `replace`
for line breaks a no-op), and cap at 4096 characters. -/
def sanitizeMessageText (text : Option String) : String :=
  match text with
  | none => ""
  | some s =>
    if s = "" then ""
    else String.mk ((joinWords (wordsAux [] s.data)).take 4096)

/-- `generateMessagePreview(text, maxLength = 50)`. -/
def generateMessagePreview (text : Option String) : String :=
  match text with
  | none => ""
  | some s =>
    if s = "" then ""
    else
      let sanitized := sanitizeMessageText (some s)
      if sanitized.length ≤ 50 then sanitized
      else String.mk (sanitized.data.take 47) ++ "..."

/-! ## Data model -/

/-- Configuration held on the `WebhookProcessor` instance. -/
structure Config where
  businessPhoneNumbers : List String
  maxRetries : Nat
  batchSize : Nat
  deriving Repr, DecidableEq

/-- The hard-coded construction-time configuration (with the environment
variable `WHATSAPP_PHONE_NUMBER` at its documented default). -/
def defaultConfig : Config :=
  { businessPhoneNumbers := ["918329446654", "91832944665", "918329446654"]
    maxRetries := 3
    batchSize := 10 }

/-- `change.value.metadata` of a payload. -/
structure Metadata where
  display_phone_number : Option String := none
  deriving Repr, DecidableEq

/-- A media sub-object of a raw message (image/document/audio/video/sticker);
absent fields are `none`. -/
structure RawMedia where
  link : Option String := none
  mime_type : Option String := none
  file_size : Option Nat := none
  caption : Option String := none
  filename : Option String := none
  thumbnail : Option String := none
  duration : Option Nat := none
  deriving Repr, DecidableEq

/-- The `location` sub-object; coordinates are carried opaquely (the code
only copies them). -/
structure RawLocation where
  latitude : Option String := none
  longitude : Option String := none
  locName : Option String := none
  address : Option String := none
  deriving Repr, DecidableEq

/-- One entry of a `contacts` message sub-object (`name.formatted_name`). -/
structure RawNameCard where
  formatted_name : Option String := none
  deriving Repr, DecidableEq

/-- A raw inbound message object (`msgData`). `fromNum`/`toNum` model the
wire fields `from`/`to` (`from` is a Lean keyword). -/
structure MsgData where
  id : String
  fromNum : Option String := none
  toNum : Option String := none
  timestamp : Option String := none
  statusField : Option String := none
  text : Option String := none
  image : Option RawMedia := none
  document : Option RawMedia := none
  audio : Option RawMedia := none
  video : Option RawMedia := none
  sticker : Option RawMedia := none
  location : Option RawLocation := none
  contactsCards : Option (List RawNameCard) := none
  deriving Repr, DecidableEq

/-- Normalized media attributes stored on a message (union of the per-kind
shapes produced by `extractMessageContent`). -/
structure MediaData where
  url : Option String := none
  mimeType : Option String := none
  fileSize : Option Nat := none
  fileName : Option String := none
  thumbnail : Option String := none
  duration : Option Nat := none
  latitude : Option String := none
  longitude : Option String := none
  locName : Option String := none
  address : Option String := none
  contactsCards : Option (List RawNameCard) := none
  deriving Repr, DecidableEq

/-- One `webhookData.status_updates` audit entry. -/
structure StatusChange where
  fromStatus : String
  toStatus : String
  obsAt : Option Nat
  deriving Repr, DecidableEq

/-- A persisted `Message` document (the fields of `messageSchema` that the
pipeline reads or writes; environment/debug bookkeeping such as
`processing_time` is omitted). `ty` models the schema field `type`. -/
structure MessageRec where
  messageId : String
  waId : String
  fromNumber : String
  toNumber : String
  text : String
  body : String
  ty : String
  direction : String
  fromMe : Bool
  status : String
  timestamp : Option Nat
  messageType : String
  mediaData : Option MediaData := none
  metaMsgId : Option String := none
  statusUpdates : List StatusChange := []
  statusOnly : Bool := false
  sentAt : Option Nat := none
  deliveredAt : Option Nat := none
  readAt : Option Nat := none
  failedAt : Option Nat := none
  errorReason : Option String := none
  deriving Repr, DecidableEq

/-- A persisted `Contact` document (the fields the pipeline touches). -/
structure ContactRec where
  waId : String
  name : String
  profilePic : Option String := none
  isActive : Bool := true
  lastMessage : String := ""
  lastMessageTime : Option Nat := none
  unreadCount : Nat := 0
  deriving Repr, DecidableEq

/-- The durable state: the `messages` and `contacts` collections plus the
`processed_messages` mirror collection. -/
structure Store where
  messages : List MessageRec := []
  contacts : List ContactRec := []
  processed : List MessageRec := []
  deriving Repr, DecidableEq

/-- `Message.findOne({ messageId })`: first match. -/
def findMessage (st : Store) (mid : String) : Option MessageRec :=
  st.messages.find? (fun m => m.messageId = mid)

/-- `Contact.findOne`-style first match by `waId`. -/
def findContact (st : Store) (w : String) : Option ContactRec :=
  st.contacts.find? (fun c => c.waId = w)

/-- Replace the first contact whose `waId` matches, by `f`. -/
def updateFirstContact (l : List ContactRec) (w : String)
    (f : ContactRec → ContactRec) : List ContactRec :=
  match l with
  | [] => []
  | c :: cs => if c.waId = w then f c :: cs else c :: updateFirstContact cs w f

/-- Replace the first message whose `messageId` matches, by the new record. -/
def replaceFirstMessage (l : List MessageRec) (mid : String)
    (m : MessageRec) : List MessageRec :=
  match l with
  | [] => []
  | x :: xs => if x.messageId = mid then m :: xs else x :: replaceFirstMessage xs mid m

/-! ## Content extraction (`extractMessageContent`) -/

/-- `extractMessageContent(msgData)`: priority dispatch over the populated
sub-object, producing `(text, type, mediaData)`. The `text` sub-object is
flattened to its `body` string. -/
def extractMessageContent (m : MsgData) : String × String × Option MediaData :=
  match m.text with
  | some t => (t, "text", none)
  | none =>
  match m.image with
  | some im =>
    (jsOrD im.caption "[Image]", "image",
      some { url := im.link, mimeType := im.mime_type, fileSize := im.file_size
             fileName := some (jsOrD im.filename "image"), thumbnail := im.thumbnail })
  | none =>
  match m.document with
  | some d =>
    (jsOrD d.caption ("[Document: " ++ jsOrD d.filename "file" ++ "]"), "document",
      some { url := d.link, mimeType := d.mime_type, fileSize := d.file_size
             fileName := some (jsOrD d.filename "document") })
  | none =>
  match m.audio with
  | some a =>
    ("[Audio Message]", "audio",
      some { url := a.link, mimeType := a.mime_type, fileSize := a.file_size
             duration := a.duration })
  | none =>
  match m.video with
  | some v =>
    (jsOrD v.caption "[Video]", "video",
      some { url := v.link, mimeType := v.mime_type, fileSize := v.file_size
             fileName := some (jsOrD v.filename "video"), thumbnail := v.thumbnail })
  | none =>
  match m.sticker with
  | some s =>
    ("[Sticker]", "sticker",
      some { url := s.link, mimeType := s.mime_type, fileSize := s.file_size })
  | none =>
  match m.location with
  | some loc =>
    ("[Location: " ++ jsOrD loc.locName "Shared Location" ++ "]", "location",
      some { latitude := loc.latitude, longitude := loc.longitude
             locName := loc.locName, address := loc.address })
  | none =>
  match m.contactsCards with
  | some cards =>
    ("[Contact: " ++ jsOrD (cards.head?.bind RawNameCard.formatted_name) "Shared Contact" ++ "]",
      "contact", some { contactsCards := some cards })
  | none => ("[Unknown Message Type]", "unknown", none)

/-! ## Direction resolution (`detectMessageDirection`) -/

/-- The combined business-number list:
`[metadata?.display_phone_number, ...config.businessPhoneNumbers].filter(Boolean)`. -/
def businessNumbers (cfg : Config) (md : Option Metadata) : List String :=
  ((match md.bind Metadata.display_phone_number with
    | some s => [s]
    | none => []) ++ cfg.businessPhoneNumbers).filter (fun s => s ≠ "")

/-- The pre-cleanup state of the resolver: the candidate `waId` (still raw),
the direction flag and the confidence reached when the decision chain ends. -/
structure RawResolution where
  waId : Option String
  isOutgoing : Bool
  confidence : Nat
  deriving Repr, DecidableEq

/-- `fromNumber === businessPhoneNumbers[0]` (strict equality against a
possibly-undefined head; `null === undefined` is false). -/
def fromEqualsHead (fromNum : Option String) (bns : List String) : Bool :=
  match bns.head?, fromNum with
  | some b, some f => b = f
  | _, _ => false

/-- The decision chain of `detectMessageDirection` up to (excluding) the
final `!waId || waId === 'undefined' || waId === 'null'` check and the
digit cleanup: methods 1–3, then the fallback block entered when the
candidate is still falsy. `rand` stands for `Math.random() > 0.5` and
`nowTs` for `Date.now()`. -/
def resolveWaIdRaw (cfg : Config) (msg : MsgData) (md : Option Metadata)
    (payloadId : Option String) (rand : Bool) (nowTs : Nat) : RawResolution :=
  let bns := businessNumbers cfg md
  let r1 : RawResolution :=
    if strTruthy msg.fromNum ∧ msg.fromNum.getD "" ∈ bns then
      { waId := msg.toNum, isOutgoing := true, confidence := 100 }
    else if strTruthy msg.toNum ∧ msg.toNum.getD "" ∈ bns then
      { waId := msg.fromNum, isOutgoing := false, confidence := 100 }
    else if strTruthy msg.fromNum then
      { waId := msg.fromNum, isOutgoing := false, confidence := 80 }
    else
      { waId := none, isOutgoing := false, confidence := 100 }
  if strTruthy r1.waId then r1
  else
    if strTruthy msg.fromNum ∧ ¬ msg.fromNum.getD "" ∈ bns then
      { waId := msg.fromNum, isOutgoing := false, confidence := 60 }
    else if strTruthy msg.toNum ∧ ¬ msg.toNum.getD "" ∈ bns then
      { waId := msg.toNum, isOutgoing := true, confidence := 60 }
    else if strTruthy payloadId then
      let pid := strToLower (payloadId.getD "")
      if strContains pid "conv1" ∨ strContains pid "ravi" then
        { waId := some "919937320320", isOutgoing := fromEqualsHead msg.fromNum bns
          confidence := 40 }
      else if strContains pid "conv2" ∨ strContains pid "neha" then
        { waId := some "929967673820", isOutgoing := fromEqualsHead msg.fromNum bns
          confidence := 40 }
      else
        let ts := if strTruthy msg.timestamp then msg.timestamp.getD "" else toString nowTs
        { waId := some ("99" ++ lastChars 8 ts), isOutgoing := rand, confidence := 20 }
    else
      { waId := none, isOutgoing := r1.isOutgoing, confidence := 50 }

/-- The value returned from `detectMessageDirection` on success. -/
structure DirectionResult where
  waId : String
  isOutgoing : Bool
  fromNumber : Option String
  toNumber : Option String
  confidence : Nat
  deriving Repr, DecidableEq

/-- Rendering of a nullable string inside a JS template literal. -/
def jsTemplate : Option String → String
  | none => "undefined"
  | some s => s

/-- `detectMessageDirection`: the decision chain followed by the final
validation (reject falsy/`"undefined"`/`"null"` candidates by throwing) and
the cleanup (`waId` digits only, `from`/`to` defaulted). -/
def detectMessageDirection (cfg : Config) (msg : MsgData) (md : Option Metadata)
    (payloadId : Option String) (rand : Bool) (nowTs : Nat) :
    Except String DirectionResult :=
  let bns := businessNumbers cfg md
  let r := resolveWaIdRaw cfg msg md payloadId rand nowTs
  if ¬ strTruthy r.waId ∨ r.waId = some "undefined" ∨ r.waId = some "null" then
    .error ("Failed to determine waId for message " ++ msg.id ++ ". From: " ++
      jsTemplate msg.fromNum ++ ", To: " ++ jsTemplate msg.toNum ++
      ", Confidence: " ++ toString r.confidence ++ "%")
  else
    let cleaned := digitsOnly (r.waId.getD "")
    let fromOut : Option String :=
      if strTruthy msg.fromNum then msg.fromNum
      else if strTruthy bns.head? then bns.head?
      else cfg.businessPhoneNumbers.head?
    let toOut : Option String :=
      if strTruthy msg.toNum then msg.toNum else some cleaned
    .ok { waId := cleaned, isOutgoing := r.isOutgoing, fromNumber := fromOut
          toNumber := toOut, confidence := r.confidence }

/-- `determineInitialStatus(isOutgoing, msgData)`. -/
def determineInitialStatus (isOutgoing : Bool) (msg : MsgData) : String :=
  if isOutgoing then jsOrD msg.statusField "sent" else "delivered"

/-! ## Persistence (`Message.js` / `Contact.js` mongoose behaviour) -/

/-- The `status` enum of `messageSchema`. -/
def statusEnum : List String :=
  ["sending", "sent", "delivered", "read", "failed", "pending", "queued"]

/-- The `messageType` enum of `messageSchema`. -/
def messageTypeEnum : List String :=
  ["text", "image", "video", "audio", "document", "sticker", "location", "contact", "system"]

/-- The `waId` validator of `messageSchema`: `/^\d{10,15}$/`. -/
def waIdSchemaOk (w : String) : Bool :=
  decide (10 ≤ w.length) && decide (w.length ≤ 15) && w.data.all Char.isDigit

/-- The schema validation run by `message.save()` (the checks that can fire
for the documents this pipeline builds: required/minlength/maxlength and the
enums; media-field validators are omitted, they only loosen nothing the
claims touch). A `none` timestamp (invalid date) also fails the cast. -/
def messageSchemaValid (m : MessageRec) : Bool :=
  decide (3 ≤ m.messageId.length) &&
  waIdSchemaOk m.waId &&
  m.fromNumber ≠ "" &&
  m.toNumber ≠ "" &&
  m.text ≠ "" &&
  decide (m.text.length ≤ 4096) &&
  decide (m.body.length ≤ 4096) &&
  (m.ty = "incoming" || m.ty = "outgoing") &&
  m.status ∈ statusEnum &&
  m.messageType ∈ messageTypeEnum &&
  m.timestamp ≠ none

/-- The `messageSchema.pre('save')` middleware (registered twice in the
source with the same effect): synchronize `body`/`text`, derive
`fromMe`/`direction` from `type`, fill the still-unset status timestamp for
the current status with the wall clock, and fall back to a generated
`messageId` when it is empty (its random suffix is folded into the clock
parameter; no caller in this development saves an empty id). -/
def applySaveHook (nowTs : Nat) (m : MessageRec) : MessageRec :=
  let m :=
    if m.text ≠ "" ∧ m.body = "" then { m with body := m.text }
    else if m.body ≠ "" ∧ m.text = "" then { m with text := m.body }
    else m
  let m := { m with fromMe := m.ty = "outgoing"
                    direction := if m.ty = "outgoing" then "outbound" else "inbound" }
  let m :=
    if m.status = "sent" ∧ m.sentAt = none then { m with sentAt := some nowTs }
    else if m.status = "delivered" ∧ m.deliveredAt = none then { m with deliveredAt := some nowTs }
    else if m.status = "read" ∧ m.readAt = none then { m with readAt := some nowTs }
    else m
  if m.messageId = "" then { m with messageId := "msg-" ++ toString nowTs } else m

/-- `ProcessedMessage.create(...)` with its `catch` that swallows duplicate
(and, after a warning, any other) errors: insert into the mirror collection
unless invalid or already present. -/
def insertProcessed (l : List MessageRec) (m : MessageRec) : List MessageRec :=
  if messageSchemaValid m ∧ ¬ l.any (fun x => x.messageId = m.messageId) then l ++ [m] else l

/-- `new Message(...).save()` for a document not yet persisted: run the
pre-save hook, validate, honour the unique `messageId` index, then insert.
Returns the stored record. -/
def saveNewMessage (st : Store) (m : MessageRec) (nowTs : Nat) :
    Except String (Store × MessageRec) :=
  let m := applySaveHook nowTs m
  if ¬ messageSchemaValid m then .error "ValidationError"
  else if (findMessage st m.messageId).isSome then .error "E11000 duplicate key"
  else .ok ({ st with messages := st.messages ++ [m] }, m)

/-- `message.save()` for a document loaded from the store: run the pre-save
hook, validate, and write the document back in place. -/
def saveExistingMessage (st : Store) (m : MessageRec) (nowTs : Nat) :
    Except String (Store × MessageRec) :=
  let m := applySaveHook nowTs m
  if ¬ messageSchemaValid m then .error "ValidationError"
  else .ok ({ st with messages := replaceFirstMessage st.messages m.messageId m }, m)

/-- `ensureContactExists(waId, name)`: format the key and
`findOneAndUpdate` with upsert — overwrite `name`/`profilePic`/`isActive`,
keep the rolling fields, apply schema defaults on insert. (Query middleware
runs no document validation, so this never fails.) -/
def ensureContactExists (st : Store) (w : Option String) (name : Option String)
    (nowTs : Nat) : Store :=
  let fw := (formatPhoneNumber w).getD ""
  let nm := jsOrD name ("Contact " ++ fw)
  let upd := fun (c : ContactRec) => { c with name := nm, profilePic := (none : Option String), isActive := true }
  let fresh : ContactRec :=
    { waId := fw, name := nm, profilePic := none, isActive := true
      lastMessage := "", lastMessageTime := some nowTs, unreadCount := 0 }
  match findContact st fw with
  | some _ => { st with contacts := updateFirstContact st.contacts fw upd }
  | none => { st with contacts := st.contacts ++ [fresh] }

/-- `upsertContact(contactData)`: wa_id from the payload contact list. -/
structure RawContact where
  wa_id : Option String := none
  profileName : Option String := none
  profilePicture : Option String := none
  deriving Repr, DecidableEq

/-- `upsertContact`: validate the formatted id (returning the unchanged
store for an invalid one, as the source returns `null`) and upsert. -/
def upsertContact (st : Store) (c : RawContact) (nowTs : Nat) : Store :=
  let w := formatPhoneNumber c.wa_id
  if ¬ isValidWaId w then st
  else
    let fw := w.getD ""
    let nm := jsOrD c.profileName ("Contact " ++ fw)
    let pic := if strTruthy c.profilePicture then c.profilePicture else none
    let upd := fun (x : ContactRec) => { x with name := nm, profilePic := pic, isActive := true }
    let fresh : ContactRec :=
      { waId := fw, name := nm, profilePic := pic, isActive := true
        lastMessage := "", lastMessageTime := some nowTs, unreadCount := 0 }
    match findContact st fw with
    | some _ => { st with contacts := updateFirstContact st.contacts fw upd }
    | none => { st with contacts := st.contacts ++ [fresh] }

/-- `updateContactLastMessage(waId, lastMessage, timestamp, unreadIncrement)`:
set the preview/time and `$inc` the unread counter (only when the increment
is positive), upserting when the contact is missing. -/
def updateContactLastMessage (st : Store) (w : String) (lastMsg : String)
    (ts : Option Nat) (unreadInc : Nat) : Store :=
  let fw := (formatPhoneNumber (some w)).getD ""
  let upd := fun (c : ContactRec) =>
    { c with lastMessage := lastMsg, lastMessageTime := ts
             unreadCount := if 0 < unreadInc then c.unreadCount + unreadInc else c.unreadCount }
  let fresh : ContactRec :=
    { waId := fw, name := "", profilePic := none, isActive := true
      lastMessage := lastMsg, lastMessageTime := ts, unreadCount := unreadInc }
  match findContact st fw with
  | some _ => { st with contacts := updateFirstContact st.contacts fw upd }
  | none => { st with contacts := st.contacts ++ [fresh] }

/-- `Contact.findOneAndUpdate({ waId }, { $set: { unreadCount: 0 } })`
without upsert: reset the counter when the contact exists. -/
def resetUnreadCount (st : Store) (w : String) : Store :=
  let upd := fun (c : ContactRec) => { c with unreadCount := 0 }
  { st with contacts := updateFirstContact st.contacts w upd }

/-! ## Message processing (`processMessage`) -/

/-- `processMessage(msgData, metadata, originalPayload, messageIndex)`.
The mutated store is returned next to the outcome so that writes performed
before a throw stay visible (they are already awaited in the source).
Timing/debug bookkeeping (`processing_time`, `debug_info`) is omitted; the
second `message.save()` of the source only updates those fields and is
therefore a no-op here. -/
def processMessage (cfg : Config) (st : Store) (msg : MsgData) (md : Option Metadata)
    (payloadId : Option String) (rand : Bool) (nowTs : Nat) :
    Store × Except String MessageRec :=
  match findMessage st msg.id with
  | some existing => (st, .ok existing)
  | none =>
    let ex := extractMessageContent msg
    let messageText := ex.1
    let messageType := ex.2.1
    let mediaData := ex.2.2
    match detectMessageDirection cfg msg md payloadId rand nowTs with
    | .error e => (st, .error e)
    | .ok d =>
      if ¬ (d.waId ≠ "" ∧ isValidWaId (some d.waId) = true) then
        (st, .error ("Invalid waId detected: " ++ d.waId ++ ". From: " ++
          jsTemplate d.fromNumber ++ ", To: " ++ jsTemplate d.toNumber))
      else
        let formattedWaId := (formatPhoneNumber (some d.waId)).getD ""
        let formattedFromNumber :=
          (jsOr (formatPhoneNumber d.fromNumber) cfg.businessPhoneNumbers.head?).getD ""
        let formattedToNumber :=
          (jsOr (formatPhoneNumber d.toNumber) (some formattedWaId)).getD ""
        let st1 := ensureContactExists st (some formattedWaId)
          (some ("Contact " ++ formattedWaId)) nowTs
        let newMsg : MessageRec :=
          { messageId := msg.id
            waId := formattedWaId
            fromNumber := formattedFromNumber
            toNumber := formattedToNumber
            text := sanitizeMessageText (some messageText)
            body := sanitizeMessageText (some messageText)
            ty := if d.isOutgoing then "outgoing" else "incoming"
            direction := if d.isOutgoing then "outbound" else "inbound"
            fromMe := d.isOutgoing
            status := determineInitialStatus d.isOutgoing msg
            timestamp := jsParseTs msg.timestamp
            messageType := messageType
            mediaData := mediaData }
        match saveNewMessage st1 newMsg nowTs with
        | .error e => (st1, .error e)
        | .ok (st2, saved) =>
          let st3 := { st2 with processed := insertProcessed st2.processed saved }
          let st4 := updateContactLastMessage st3 formattedWaId
            (generateMessagePreview (some messageText)) saved.timestamp
            (if d.isOutgoing then 0 else 1)
          (st4, .ok saved)

/-! ## Status reconciliation (`updateMessageStatus`) -/

/-- One element of a payload's `statuses[]` array. -/
structure StatusEvent where
  id : String
  meta_msg_id : Option String := none
  status : String
  recipient_id : Option String := none
  timestamp : Option String := none
  errMessage : Option String := none
  deriving Repr, DecidableEq

/-- What a single `updateMessageStatus` call did. -/
inductive StatusOutcome where
  | updated (m : MessageRec)
  | placeholderCreated (m : MessageRec)
  | dropped
  deriving Repr, DecidableEq

/-- The placeholder `Message` document built for a status event whose
message is unknown (body text uses the source's plain hyphen). -/
def mkPlaceholder (cfg : Config) (ev : StatusEvent) : MessageRec :=
  let w := (formatPhoneNumber ev.recipient_id).getD ""
  { messageId := ev.id
    waId := w
    fromNumber := cfg.businessPhoneNumbers.headD ""
    toNumber := w
    text := "[Message content not available - status only]"
    body := "[Message content not available - status only]"
    ty := "outgoing"
    direction := "outbound"
    fromMe := true
    status := ev.status
    timestamp := jsParseTs ev.timestamp
    messageType := "text"
    statusOnly := true }

/-- `updateMessageStatus(statusData, originalPayload, statusIndex)`:
lookup by `id` then `meta_msg_id`; when found, append the audit entry, set
the new status, write the per-status metadata timestamp, reset the
contact's unread counter on `read` of an outgoing message, and save; when
not found, create a placeholder unless the status is `failed` or there is
no `recipient_id`. -/
def updateMessageStatus (cfg : Config) (st : Store) (ev : StatusEvent)
    (nowTs : Nat) : Store × Except String StatusOutcome :=
  let found :=
    match findMessage st ev.id with
    | some m => some m
    | none =>
      if strTruthy ev.meta_msg_id then findMessage st (ev.meta_msg_id.getD "") else none
  match found with
  | none =>
    if ev.status ≠ "failed" ∧ strTruthy ev.recipient_id then
      match saveNewMessage st (mkPlaceholder cfg ev) nowTs with
      | .error e => (st, .error e)
      | .ok (st2, saved) =>
        ({ st2 with processed := insertProcessed st2.processed saved },
          .ok (.placeholderCreated saved))
    else
      (st, .ok .dropped)
  | some m0 =>
    let tsN := jsParseTs ev.timestamp
    let oldStatus := m0.status
    let m1 := { m0 with status := ev.status }
    let m2 :=
      if ¬ strTruthy m1.metaMsgId ∧ strTruthy ev.meta_msg_id then
        { m1 with metaMsgId := ev.meta_msg_id }
      else m1
    let m3 := { m2 with statusUpdates := m2.statusUpdates ++ [⟨oldStatus, ev.status, tsN⟩] }
    let stm : Store × MessageRec :=
      if ev.status = "sent" then (st, { m3 with sentAt := tsN })
      else if ev.status = "delivered" then (st, { m3 with deliveredAt := tsN })
      else if ev.status = "read" then
        (if m3.ty = "outgoing" then resetUnreadCount st m3.waId else st,
          { m3 with readAt := tsN })
      else if ev.status = "failed" then
        (st, { m3 with failedAt := tsN, errorReason := some (jsOrD ev.errMessage "Unknown error") })
      else (st, m3)
    match saveExistingMessage stm.1 stm.2 nowTs with
    | .error e => (stm.1, .error e)
    | .ok (st2, saved) => (st2, .ok (.updated saved))

/-! ## Batch orchestration (`processMessages`, `processMessageStatuses`, `processPayload`) -/

/-- Outcome of one message inside a batch (the value the `batchPromises`
callback resolves to). -/
structure MsgResult where
  success : Bool
  messageId : String
  error : Option String := none
  deriving Repr, DecidableEq

/-- The per-message `try/catch` of the batch callback: a failure is
recorded, never propagated. -/
def processMessageCaught (cfg : Config) (st : Store) (msg : MsgData) (md : Option Metadata)
    (pid : Option String) (rand : Bool) (nowTs : Nat) : Store × MsgResult :=
  match processMessage cfg st msg md pid rand nowTs with
  | (st2, .ok _) => (st2, { success := true, messageId := msg.id })
  | (st2, .error e) => (st2, { success := false, messageId := msg.id, error := some e })

/-- `messages.slice(i, i + batchSize)` grouping. The fuel argument's bound
by the list length suffices for any positive chunk size; a zero batch size
(under which the source's loop would not advance) yields no chunks. -/
def chunkFuel {α : Type} : Nat → Nat → List α → List (List α)
  | 0, _, _ => []
  | _ + 1, _, [] => []
  | fuel + 1, n, l => l.take n :: chunkFuel fuel n (l.drop n)

/-- Split a list into consecutive chunks of size `n`. -/
def chunkList {α : Type} (n : Nat) (l : List α) : List (List α) :=
  chunkFuel l.length n l

/-- Process one batch of messages. The source runs the batch members under
`Promise.allSettled`; they are sequentialized here in array order (each
worker touches only its own `messageId` key). -/
def processBatch (cfg : Config) (st : Store) (batch : List MsgData) (md : Option Metadata)
    (pid : Option String) (rand : Bool) (nowTs : Nat) : Store × List MsgResult :=
  batch.foldl
    (fun acc m =>
      let r := processMessageCaught cfg acc.1 m md pid rand nowTs
      (r.1, acc.2 ++ [r.2]))
    (st, [])

/-- `successful` count computed for a batch. -/
def batchSuccessCount (rs : List MsgResult) : Nat :=
  (rs.filter (fun r => r.success)).length

/-- `failed` count computed for a batch. -/
def batchFailureCount (rs : List MsgResult) : Nat :=
  (rs.filter (fun r => !r.success)).length

/-- `change.value` of a payload change. -/
structure ChangeValue where
  messages : Option (List MsgData) := none
  statuses : Option (List StatusEvent) := none
  contacts : Option (List RawContact) := none
  metadata : Option Metadata := none
  deriving Repr, DecidableEq

/-- `processMessages(messageData, originalPayload, entryIndex)`: contacts
first (each upsert's own failures are swallowed), then the messages in
batches, collecting the per-batch results that the source reports. -/
def processMessagesChange (cfg : Config) (st : Store) (v : ChangeValue)
    (pid : Option String) (rand : Bool) (nowTs : Nat) : Store × List (List MsgResult) :=
  let st :=
    match v.contacts with
    | some cs => cs.foldl (fun s c => upsertContact s c nowTs) st
    | none => st
  match v.messages with
  | none => (st, [])
  | some ms =>
    (chunkList cfg.batchSize ms).foldl
      (fun acc batch =>
        let r := processBatch cfg acc.1 batch v.metadata pid rand nowTs
        (r.1, acc.2 ++ [r.2]))
      (st, [])

/-- The retry loop around one status event: up to `maxRetries` attempts,
stopping at the first success; after the budget the failure is only logged
(the model's attempts are deterministic, so retries replay the first
attempt on the store it left behind). -/
def processStatusWithRetry (cfg : Config) : Nat → Store → StatusEvent → Nat → Store
  | 0, st, _, _ => st
  | n + 1, st, ev, nowTs =>
    match updateMessageStatus cfg st ev nowTs with
    | (st2, .ok _) => st2
    | (st2, .error _) => processStatusWithRetry cfg n st2 ev nowTs

/-- `processMessageStatuses(statusData, originalPayload, entryIndex)`:
sequential, retried, never throws. -/
def processMessageStatuses (cfg : Config) (st : Store) (v : ChangeValue)
    (nowTs : Nat) : Store :=
  match v.statuses with
  | some evs => evs.foldl (fun s ev => processStatusWithRetry cfg cfg.maxRetries s ev nowTs) st
  | none => st

/-- One element of `entry[].changes`. -/
structure Change where
  field : String
  value : ChangeValue
  deriving Repr, DecidableEq

/-- One element of `metaData.entry`. -/
structure Entry where
  changes : List Change := []
  deriving Repr, DecidableEq

/-- A webhook payload; `entry = none` models a missing `metaData.entry` or
one that is not an array. -/
structure Payload where
  pid : Option String := none
  entry : Option (List Entry) := none
  deriving Repr, DecidableEq

/-- The summary `processPayload` resolves with. The per-entry `errors` list
stays empty for well-formed entries because every inner failure is caught
at message/status level. -/
structure PayloadResult where
  processedItems : Nat
  errorCount : Nat
  deriving Repr, DecidableEq

/-- `processPayload(payloadData)`: validate the shape, then walk
entries → changes, routing `messages`/`statuses` of each
`field == "messages"` change. -/
def processPayload (cfg : Config) (st : Store) (p : Payload) (rand : Bool) (nowTs : Nat) :
    Store × Except String PayloadResult :=
  match p.entry with
  | none => (st, .error "Invalid payload structure: missing or non-array entry")
  | some entries =>
    let step := fun (acc : Store × Nat) (e : Entry) =>
      e.changes.foldl
        (fun acc2 ch =>
          if ch.field = "messages" then
            let acc3 :=
              match ch.value.messages with
              | some _ =>
                let r := processMessagesChange cfg acc2.1 ch.value p.pid rand nowTs
                (r.1, acc2.2 + 1)
              | none => acc2
            match ch.value.statuses with
            | some _ => (processMessageStatuses cfg acc3.1 ch.value nowTs, acc3.2 + 1)
            | none => acc3
          else acc2)
        acc
    let res := entries.foldl step (st, 0)
    (res.1, .ok { processedItems := res.2, errorCount := 0 })

/-! ## Helper lemmas -/

theorem filter_isDigit_idem (l : List Char) :
    (l.filter Char.isDigit).filter Char.isDigit = l.filter Char.isDigit := by
  induction l with
  | nil => rfl
  | cons a t ih =>
    by_cases h : Char.isDigit a <;> simp [List.filter_cons, h, ih]

theorem digitsOnly_digitsOnly (s : String) :
    digitsOnly (digitsOnly s) = digitsOnly s := by
  simp [digitsOnly, filter_isDigit_idem]

theorem data_append (a b : String) : (a ++ b).data = a.data ++ b.data := by
  cases a; cases b; rfl

theorem digitsOnly_91_append (s : String) :
    digitsOnly ("91" ++ digitsOnly s) = "91" ++ digitsOnly s := by
  apply String.ext
  simp [digitsOnly, data_append, List.filter_append, filter_isDigit_idem]


theorem strStartsWith_91_append (t : String) : strStartsWith ("91" ++ t) "91" = true := by
  simp [strStartsWith, data_append]

/-- The output of `formatPhoneNumber` is (when non-empty) a fixed point of
`formatPhoneNumber`, so the re-formatting done inside the contact helpers
leaves an already formatted number unchanged. -/
theorem formatPhoneNumber_fix (s v : String)
    (h : formatPhoneNumber (some s) = some v) (hv : v ≠ "") :
    formatPhoneNumber (some v) = some v := by
  simp only [formatPhoneNumber] at h ⊢
  split at h
  · exact absurd h (by simp)
  · split at h
    · rename_i hs hc
      rw [Option.some.injEq] at h
      subst h
      have h1 : digitsOnly ("91" ++ digitsOnly s) = "91" ++ digitsOnly s :=
        digitsOnly_91_append s
      simp [hv, h1, strStartsWith_91_append]
    · split at h
      · simp_all
      · rename_i hs hc hdead
        rw [Option.some.injEq] at h
        subst h
        simp only [hv, ite_false, if_neg, digitsOnly_digitsOnly]
        split
        · rename_i hc2
          exact absurd hc2 hc
        · rfl

theorem ensureContactExists_messages (st : Store) (w nm : Option String) (nowTs : Nat) :
    (ensureContactExists st w nm nowTs).messages = st.messages := by
  simp only [ensureContactExists]
  split <;> rfl

theorem ensureContactExists_processed (st : Store) (w nm : Option String) (nowTs : Nat) :
    (ensureContactExists st w nm nowTs).processed = st.processed := by
  simp only [ensureContactExists]
  split <;> rfl

theorem updateContactLastMessage_messages (st : Store) (w lm : String) (ts : Option Nat) (inc : Nat) :
    (updateContactLastMessage st w lm ts inc).messages = st.messages := by
  simp only [updateContactLastMessage]
  split <;> rfl

theorem resetUnreadCount_messages (st : Store) (w : String) :
    (resetUnreadCount st w).messages = st.messages := rfl

theorem applySaveHook_waId (nowTs : Nat) (m : MessageRec) :
    (applySaveHook nowTs m).waId = m.waId := by
  simp only [applySaveHook]
  repeat' split
  all_goals rfl

theorem applySaveHook_messageId (nowTs : Nat) (m : MessageRec) (h : m.messageId ≠ "") :
    (applySaveHook nowTs m).messageId = m.messageId := by
  simp only [applySaveHook]
  repeat' split
  all_goals simp_all

theorem findMessage_congr (st1 st2 : Store) (mid : String)
    (h : st1.messages = st2.messages) : findMessage st1 mid = findMessage st2 mid := by
  simp [findMessage, h]

theorem saveNewMessage_spec (st : Store) (m : MessageRec) (nowTs : Nat) :
    (∃ e, saveNewMessage st m nowTs = .error e) ∨
    (findMessage st (applySaveHook nowTs m).messageId = none ∧
      saveNewMessage st m nowTs =
        .ok ({ st with messages := st.messages ++ [applySaveHook nowTs m] },
          applySaveHook nowTs m)) := by
  simp only [saveNewMessage]
  split
  · exact Or.inl ⟨_, rfl⟩
  · split
    · exact Or.inl ⟨_, rfl⟩
    · rename_i hvalid hdup
      exact Or.inr ⟨Option.not_isSome_iff_eq_none.mp hdup, rfl⟩

theorem updateFirstContact_hasKey (l : List ContactRec) (w k : String)
    (f : ContactRec → ContactRec) (hf : ∀ c, (f c).waId = c.waId)
    (h : ∃ c ∈ l, c.waId = k) : ∃ c ∈ updateFirstContact l w f, c.waId = k := by
  induction l with
  | nil => simp at h
  | cons a t ih =>
    rcases h with ⟨c, hc, hk⟩
    simp only [List.mem_cons] at hc
    simp only [updateFirstContact]
    rcases hc with rfl | hct
    · split
      · exact ⟨f c, List.mem_cons_self _ _, (hf c).trans hk⟩
      · exact ⟨c, List.mem_cons_self _ _, hk⟩
    · split
      · exact ⟨c, List.mem_cons_of_mem _ hct, hk⟩
      · rcases ih ⟨c, hct, hk⟩ with ⟨x, hx, hxk⟩
        exact ⟨x, List.mem_cons_of_mem _ hx, hxk⟩

theorem findContact_updateFirst (l : List ContactRec) (w : String)
    (f : ContactRec → ContactRec) (hf : ∀ c, (f c).waId = c.waId) :
    List.find? (fun c => c.waId = w) (updateFirstContact l w f) =
      (List.find? (fun c => c.waId = w) l).map f := by
  induction l with
  | nil => rfl
  | cons a t ih =>
    simp only [updateFirstContact]
    by_cases h : a.waId = w
    · rw [if_pos h]
      rw [List.find?_cons_of_pos _ (by simpa using (hf a).trans h), List.find?_cons_of_pos _ (by simp [h])]
      rfl
    · rw [if_neg h]
      rw [List.find?_cons_of_neg _ (by simp [h]), List.find?_cons_of_neg _ (by simp [h]), ih]

theorem findMessage_replaceFirst (l : List MessageRec) (mid : String) (m : MessageRec)
    (hex : (List.find? (fun x => x.messageId = mid) l).isSome)
    (hm : m.messageId = mid) :
    List.find? (fun x => x.messageId = mid) (replaceFirstMessage l mid m) = some m := by
  induction l with
  | nil => simp at hex
  | cons a t ih =>
    simp only [replaceFirstMessage]
    by_cases h : a.messageId = mid
    · rw [if_pos h, List.find?_cons_of_pos _ (by simp [hm])]
    · rw [if_neg h, List.find?_cons_of_neg _ (by simp [h])]
      apply ih
      rwa [List.find?_cons_of_neg _ (by simp [h])] at hex

/-! ## Claim theorems -/

/-- C10: `formatPhoneNumber` does more than strip non-digits — a non-empty
input whose digits-only form has exactly 10 digits and does not start with
`"91"` comes back with the default country code `"91"` prepended (and hence
differs from the bare digits); `null`/empty input gives `null`; every other
input comes back as its digits unchanged. -/
theorem formatPhoneNumber_spec :
    formatPhoneNumber none = none ∧
    formatPhoneNumber (some "") = none ∧
    (∀ s : String, s ≠ "" → (digitsOnly s).length = 10 →
      strStartsWith (digitsOnly s) "91" = false →
      formatPhoneNumber (some s) = some ("91" ++ digitsOnly s) ∧
        "91" ++ digitsOnly s ≠ digitsOnly s) ∧
    (∀ s : String, s ≠ "" →
      ¬ ((digitsOnly s).length = 10 ∧ strStartsWith (digitsOnly s) "91" = false) →
      formatPhoneNumber (some s) = some (digitsOnly s)) := by
  refine ⟨rfl, rfl, ?_, ?_⟩
  · intro s hs hlen hsw
    refine ⟨by simp [formatPhoneNumber, hs, hsw, hlen], ?_⟩
    intro h
    have hlen2 := congrArg String.length h
    rw [String.length_append, show ("91" : String).length = 2 from rfl] at hlen2
    omega
  · intro s hs hcond
    simp only [formatPhoneNumber, hs, ite_false, if_neg]
    split
    · rename_i hc
      rcases hc with ⟨hc1, hc2⟩
      exact absurd ⟨hc2, by simpa using hc1⟩ hcond
    · split
      · simp_all
      · rfl

/-- C10 witness: a 10-digit wire value gains the `"91"` country code; an
already-prefixed number only loses its non-digits. -/
theorem formatPhoneNumber_spec_witness :
    (("98765 43210" : String) ≠ "" ∧
      formatPhoneNumber (some "98765 43210") = some ("91" ++ digitsOnly "98765 43210")) ∧
    (("+919876543210" : String) ≠ "" ∧
      formatPhoneNumber (some "+919876543210") = some (digitsOnly "+919876543210")) :=
  ⟨⟨by decide, (formatPhoneNumber_spec.2.2.1 "98765 43210" (by decide) (by decide) (by decide)).1⟩,
   ⟨by decide, formatPhoneNumber_spec.2.2.2 "+919876543210" (by decide) (by decide)⟩⟩

/-- C9: a `failed` status event whose ids match no stored message is
dropped — no placeholder, no store change, and no error is raised. -/
theorem failedStatusUnknownDropped (cfg : Config) (st : Store) (ev : StatusEvent) (nowTs : Nat)
    (h1 : findMessage st ev.id = none)
    (h2 : strTruthy ev.meta_msg_id = true → findMessage st (ev.meta_msg_id.getD "") = none)
    (h3 : ev.status = "failed") :
    updateMessageStatus cfg st ev nowTs = (st, .ok .dropped) := by
  have hfound : (if strTruthy ev.meta_msg_id then findMessage st (ev.meta_msg_id.getD "")
      else none) = none := by
    split
    · exact h2 (by assumption)
    · rfl
  simp [updateMessageStatus, h1, hfound, h3]

/-- C9 witness: the spec scenario — a failed event for unknown `m1` on an
empty store is a silent no-op. -/
theorem failedStatusUnknownDropped_witness :
    updateMessageStatus defaultConfig { }
      { id := "m1", status := "failed", errMessage := some "rejected" } 0 =
      ({ }, .ok .dropped) :=
  failedStatusUnknownDropped defaultConfig { }
    { id := "m1", status := "failed", errMessage := some "rejected" } 0
    (by decide) (by decide) rfl

/-- C4: a fresh message event with `from = null`, `to = null` and no payload
id is rejected — the store is unchanged, `processMessage` reports an error,
and the direction resolver itself errors; moreover any resolution whose raw
candidate is the empty, `"undefined"`, or `"null"` string is rejected. -/
theorem noEndpointsRejected (cfg : Config) (st : Store) (msg : MsgData) (md : Option Metadata)
    (rand : Bool) (nowTs : Nat)
    (hf : msg.fromNum = none) (ht : msg.toNum = none)
    (hnew : findMessage st msg.id = none) :
    ((processMessage cfg st msg md none rand nowTs).1 = st ∧
      (∃ e, (processMessage cfg st msg md none rand nowTs).2 = .error e) ∧
      (∃ e, detectMessageDirection cfg msg md none rand nowTs = .error e)) ∧
    (∀ (cfg2 : Config) (msg2 : MsgData) (md2 : Option Metadata) (pid2 : Option String)
        (rand2 : Bool) (now2 : Nat),
      ((resolveWaIdRaw cfg2 msg2 md2 pid2 rand2 now2).waId = some "" ∨
        (resolveWaIdRaw cfg2 msg2 md2 pid2 rand2 now2).waId = some "undefined" ∨
        (resolveWaIdRaw cfg2 msg2 md2 pid2 rand2 now2).waId = some "null") →
      ∃ e, detectMessageDirection cfg2 msg2 md2 pid2 rand2 now2 = .error e) := by
  constructor
  · have hraw : resolveWaIdRaw cfg msg md none rand nowTs =
        { waId := none, isOutgoing := false, confidence := 50 } := by
      simp [resolveWaIdRaw, hf, ht, strTruthy]
    have hdet : ∃ e, detectMessageDirection cfg msg md none rand nowTs = .error e := by
      simp [detectMessageDirection, hraw, strTruthy]
    rcases hdet with ⟨e, he⟩
    refine ⟨?_, ⟨e, ?_⟩, ⟨e, he⟩⟩
    · simp [processMessage, hnew, he]
    · simp [processMessage, hnew, he]
  · intro cfg2 msg2 md2 pid2 rand2 now2 hbad
    rcases hbad with h | h | h <;>
      simp [detectMessageDirection, h, strTruthy]

/-- C4 witness: the concrete no-endpoint event on the empty store. -/
theorem noEndpointsRejected_witness :
    ((processMessage defaultConfig { } { id := "m3" } none none false 0).1 = { } ∧
      (∃ e, (processMessage defaultConfig { } { id := "m3" } none none false 0).2 = .error e) ∧
      (∃ e, detectMessageDirection defaultConfig { id := "m3" } none none false 0 = .error e)) :=
  (noEndpointsRejected defaultConfig { } { id := "m3" } none false 0 rfl rfl (by decide)).1

/-- C2 (amended): when `from` is a configured business number and `to` is a
non-empty string other than `"undefined"`/`"null"`, resolution gives
outgoing with confidence 100 and `waId` the digits of `to`. -/
theorem fromBusinessOutgoing (cfg : Config) (msg : MsgData) (md : Option Metadata)
    (pid : Option String) (rand : Bool) (nowTs : Nat) (f t : String)
    (hfrom : msg.fromNum = some f) (hf : f ≠ "")
    (hbus : f ∈ businessNumbers cfg md)
    (hto : msg.toNum = some t) (ht : t ≠ "")
    (ht1 : t ≠ "undefined") (ht2 : t ≠ "null") :
    detectMessageDirection cfg msg md pid rand nowTs =
      .ok { waId := digitsOnly t, isOutgoing := true, fromNumber := some f
            toNumber := some t, confidence := 100 } := by
  have hraw : resolveWaIdRaw cfg msg md pid rand nowTs =
      { waId := some t, isOutgoing := true, confidence := 100 } := by
    simp [resolveWaIdRaw, hfrom, hto, hf, ht, hbus, strTruthy]
  simp [detectMessageDirection, hraw, strTruthy, ht, ht1, ht2, hfrom, hto, hf]

/-- C2 witness: the spec scenario payload (business `from`, customer `to`). -/
theorem fromBusinessOutgoing_witness :
    detectMessageDirection defaultConfig
      { id := "m1", fromNum := some "918329446654", toNum := some "919937320320" }
      none none false 0 =
      .ok { waId := digitsOnly "919937320320", isOutgoing := true
            fromNumber := some "918329446654", toNumber := some "919937320320"
            confidence := 100 } :=
  fromBusinessOutgoing defaultConfig
    { id := "m1", fromNum := some "918329446654", toNum := some "919937320320" }
    none none false 0 "918329446654" "919937320320" rfl (by decide) (by decide) rfl
    (by decide) (by decide) (by decide)

/-- C2 counterexample: with `from` a configured business number but `to`
absent, the resolver does not return confidence 100 — the hint fallback
fires and yields confidence 40 — refuting "confidence exactly 100
regardless of the value of `to`". -/
theorem fromBusinessOutgoing_counterexample :
    ("918329446654" ∈ businessNumbers defaultConfig none) ∧
    Except.map DirectionResult.confidence
      (detectMessageDirection defaultConfig
        { id := "m2", fromNum := some "918329446654", toNum := none }
        none (some "conv1-sample") false 0) = .ok 40 ∧
    (40 : Nat) ≠ 100 := by
  refine ⟨by decide, by rfl, by decide⟩

theorem saveNewMessage_ok (st st2 : Store) (m saved : MessageRec) (nowTs : Nat)
    (h : saveNewMessage st m nowTs = .ok (st2, saved)) :
    saved = applySaveHook nowTs m ∧ findMessage st saved.messageId = none ∧
    st2 = { st with messages := st.messages ++ [saved] } := by
  simp only [saveNewMessage] at h
  split at h
  · cases h
  · split at h
    · cases h
    · rename_i hvalid hdup
      rw [Except.ok.injEq, Prod.mk.injEq] at h
      rcases h with ⟨hst, hsv⟩
      subst hsv
      exact ⟨rfl, Option.not_isSome_iff_eq_none.mp hdup, hst.symm⟩

theorem processMessage_messages_shape (cfg : Config) (st : Store) (msg : MsgData)
    (md : Option Metadata) (pid : Option String) (rand : Bool) (nowTs : Nat) :
    (processMessage cfg st msg md pid rand nowTs).1.messages = st.messages ∨
    ∃ mm, findMessage st mm.messageId = none ∧
      (processMessage cfg st msg md pid rand nowTs).1.messages = st.messages ++ [mm] := by
  rcases h1 : findMessage st msg.id with _ | m
  · rcases h2 : detectMessageDirection cfg msg md pid rand nowTs with e | d
    · left; simp [processMessage, h1, h2]
    · by_cases h3 : d.waId ≠ "" ∧ isValidWaId (some d.waId) = true
      · simp only [processMessage, h1, h2]
        rw [if_neg (not_not_intro h3)]
        split
        · left
          simp [ensureContactExists_messages]
        · rename_i st2 saved heq
          obtain ⟨hsaved, hfind, hst2⟩ := saveNewMessage_ok _ _ _ _ _ heq
          right
          refine ⟨saved, ?_, ?_⟩
          · rw [findMessage_congr st _ _ (ensureContactExists_messages st _ _ nowTs).symm]
            exact hfind
          · simp only [updateContactLastMessage_messages, hst2]
            simp [ensureContactExists_messages]
      · left; simp [processMessage, h1, h2, h3]
  · left; simp [processMessage, h1]

/-- `messageKey` uniqueness of the message collection. -/
def uniqueKeys (st : Store) : Prop :=
  (st.messages.map (fun m => m.messageId)).Nodup

/-- One `processMessage` call preserves key uniqueness: a record is only
inserted after the duplicate check reports its key absent. -/
theorem processMessage_uniqueKeys (cfg : Config) (st : Store) (msg : MsgData)
    (md : Option Metadata) (pid : Option String) (rand : Bool) (nowTs : Nat)
    (h : uniqueKeys st) :
    uniqueKeys (processMessage cfg st msg md pid rand nowTs).1 := by
  rcases processMessage_messages_shape cfg st msg md pid rand nowTs with hsh | ⟨mm, hfind, hsh⟩
  · unfold uniqueKeys
    rw [hsh]
    exact h
  · unfold uniqueKeys
    rw [hsh]
    have hnm : mm.messageId ∉ st.messages.map (fun m => m.messageId) := by
      intro hmem
      rcases List.mem_map.mp hmem with ⟨x, hx, hxk⟩
      have := List.find?_eq_none.mp hfind x hx
      simp [hxk] at this
    simp only [List.map_append, List.map_cons, List.map_nil]
    rw [List.nodup_append]
    exact ⟨h, List.nodup_singleton _, by simpa [List.disjoint_singleton] using hnm⟩

/-- C1: storage is idempotent on the message key — when the key already has
a persisted record, `processMessage` changes nothing and returns the existing
record (same or different field values make no difference, the fields are
never read); and any sequence of `processMessage` calls preserves the
uniqueness of `messageId` keys, so every key has exactly one record. -/
theorem messageStoreIdempotent (cfg : Config) (st : Store) (msg : MsgData)
    (md : Option Metadata) (pid : Option String) (rand : Bool) (nowTs : Nat)
    (m : MessageRec) (h : findMessage st msg.id = some m) :
    processMessage cfg st msg md pid rand nowTs = (st, .ok m) ∧
    ∀ (calls : List (MsgData × Option Metadata × Option String × Bool × Nat)) (st2 : Store),
      uniqueKeys st2 →
      uniqueKeys ((calls.foldl
        (fun s c => (processMessage cfg s c.1 c.2.1 c.2.2.1 c.2.2.2.1 c.2.2.2.2).1) st2)) := by
  constructor
  · simp [processMessage, h]
  · intro calls
    induction calls with
    | nil => intro st2 h2; exact h2
    | cons c cs ih =>
      intro st2 h2
      exact ih _ (processMessage_uniqueKeys cfg st2 c.1 c.2.1 c.2.2.1 c.2.2.2.1 c.2.2.2.2 h2)

/-- C1 witness: a duplicate delivery (with different field values) of key
`wamid.dup1` returns the stored record and leaves the store unchanged. -/
theorem messageStoreIdempotent_witness :
    processMessage defaultConfig
      { messages := [{ messageId := "wamid.dup1", waId := "919937320320"
                       fromNumber := "919937320320", toNumber := "918329446654"
                       text := "Hi", body := "Hi", ty := "incoming", direction := "inbound"
                       fromMe := false, status := "delivered", timestamp := some 1700000000000
                       messageType := "text" }] }
      { id := "wamid.dup1", fromNum := some "111", toNum := none, text := some "changed" }
      none none false 0 =
      ({ messages := [{ messageId := "wamid.dup1", waId := "919937320320"
                        fromNumber := "919937320320", toNumber := "918329446654"
                        text := "Hi", body := "Hi", ty := "incoming", direction := "inbound"
                        fromMe := false, status := "delivered", timestamp := some 1700000000000
                        messageType := "text" }] },
        .ok { messageId := "wamid.dup1", waId := "919937320320"
              fromNumber := "919937320320", toNumber := "918329446654"
              text := "Hi", body := "Hi", ty := "incoming", direction := "inbound"
              fromMe := false, status := "delivered", timestamp := some 1700000000000
              messageType := "text" }) :=
  (messageStoreIdempotent defaultConfig _ _ none none false 0 _ (by decide)).1

theorem saveExistingMessage_ok (st st2 : Store) (m saved : MessageRec) (nowTs : Nat)
    (h : saveExistingMessage st m nowTs = .ok (st2, saved)) :
    saved = applySaveHook nowTs m ∧
    st2 = { st with messages := replaceFirstMessage st.messages saved.messageId saved } := by
  simp only [saveExistingMessage] at h
  split at h
  · cases h
  · rw [Except.ok.injEq, Prod.mk.injEq] at h
    rcases h with ⟨hst, hsv⟩
    subst hsv
    exact ⟨rfl, hst.symm⟩

theorem saveExistingMessage_contacts (st : Store) (m : MessageRec) (nowTs : Nat) :
    (match saveExistingMessage st m nowTs with
      | .error e => (st, (.error e : Except String StatusOutcome))
      | .ok (st2, saved) => (st2, .ok (.updated saved))).1.contacts = st.contacts := by
  split
  · rfl
  · rename_i st2 saved heq
    rw [(saveExistingMessage_ok st st2 m saved nowTs heq).2]

theorem findContact_resetUnread (st : Store) (w : String) :
    findContact (resetUnreadCount st w) w =
      (findContact st w).map (fun c => { c with unreadCount := 0 }) := by
  simp only [findContact, resetUnreadCount]
  exact findContact_updateFirst st.contacts w _ (fun c => rfl)

/-- C7: a `read` status event for a stored outgoing message resets the
associated contact's `unreadCount` to 0 (whatever it was before); for a
stored incoming message a status event never touches the contact
collection at all. -/
theorem readResetsUnread (cfg : Config) (st : Store) (ev : StatusEvent) (nowTs : Nat)
    (m : MessageRec) (c : ContactRec)
    (hm : findMessage st ev.id = some m)
    (hread : ev.status = "read")
    (hout : m.ty = "outgoing")
    (hc : findContact st m.waId = some c) :
    findContact (updateMessageStatus cfg st ev nowTs).1 m.waId =
      some { c with unreadCount := 0 } ∧
    ∀ (st2 : Store) (ev2 : StatusEvent) (now2 : Nat) (m2 : MessageRec),
      findMessage st2 ev2.id = some m2 → m2.ty = "incoming" →
      (updateMessageStatus cfg st2 ev2 now2).1.contacts = st2.contacts := by
  constructor
  · simp only [updateMessageStatus, hm, hread]
    norm_num
    rw [if_neg (by decide), if_neg (by decide)]
    simp only [hout, ite_true, if_pos, apply_ite MessageRec.ty, apply_ite MessageRec.waId,
      ite_self]
    split
    · rw [show (resetUnreadCount st m.waId, Except.error (α := StatusOutcome) _).1 =
          resetUnreadCount st m.waId from rfl]
      rw [findContact_resetUnread, hc]
      rfl
    · rename_i st2 saved heq
      obtain ⟨hsaved, hst2⟩ := saveExistingMessage_ok _ _ _ _ _ heq
      subst hst2
      show findContact _ m.waId = _
      rw [show findContact { resetUnreadCount st m.waId with
            messages := replaceFirstMessage (resetUnreadCount st m.waId).messages
              saved.messageId saved } m.waId = findContact (resetUnreadCount st m.waId) m.waId
          from rfl]
      rw [findContact_resetUnread, hc]
      rfl
  · intro st2 ev2 now2 m2 hm2 hin
    simp only [updateMessageStatus, hm2, hin, apply_ite MessageRec.ty,
      apply_ite MessageRec.waId, ite_self]
    repeat' split
    all_goals
      first
        | rfl
        | (exact absurd (by assumption : ("incoming" : String) = "outgoing") (by decide))
        | (rename_i st3 saved heq
           obtain ⟨hs, hst⟩ := saveExistingMessage_ok _ _ _ _ _ heq
           subst hst
           repeat' split
           all_goals
             first
               | rfl
               | exact absurd (by assumption : ("incoming" : String) = "outgoing") (by decide))

/-- C7 witness: an outgoing message read-event zeroes a contact whose
counter was 5. -/
theorem readResetsUnread_witness :
    findContact (updateMessageStatus defaultConfig
      { messages := [{ messageId := "wamid.c7", waId := "919937320320"
                       fromNumber := "918329446654", toNumber := "919937320320"
                       text := "Hi", body := "Hi", ty := "outgoing", direction := "outbound"
                       fromMe := true, status := "delivered", timestamp := some 1700000000000
                       messageType := "text" }]
        contacts := [{ waId := "919937320320", name := "Ravi", unreadCount := 5 }] }
      { id := "wamid.c7", status := "read", timestamp := some "1700000100" } 0).1
      "919937320320" =
      some { waId := "919937320320", name := "Ravi", unreadCount := 0 } := by
  have h := (readResetsUnread defaultConfig
    { messages := [{ messageId := "wamid.c7", waId := "919937320320"
                     fromNumber := "918329446654", toNumber := "919937320320"
                     text := "Hi", body := "Hi", ty := "outgoing", direction := "outbound"
                     fromMe := true, status := "delivered", timestamp := some 1700000000000
                     messageType := "text" }]
      contacts := [{ waId := "919937320320", name := "Ravi", unreadCount := 5 }] }
    { id := "wamid.c7", status := "read", timestamp := some "1700000100" } 0
    { messageId := "wamid.c7", waId := "919937320320"
      fromNumber := "918329446654", toNumber := "919937320320"
      text := "Hi", body := "Hi", ty := "outgoing", direction := "outbound"
      fromMe := true, status := "delivered", timestamp := some 1700000000000
      messageType := "text" }
    { waId := "919937320320", name := "Ravi", unreadCount := 5 }
    (by decide) rfl rfl (by decide)).1
  exact h

theorem saveExistingMessage_eq_ok (st : Store) (m : MessageRec) (nowTs : Nat)
    (h : messageSchemaValid (applySaveHook nowTs m) = true) :
    saveExistingMessage st m nowTs =
      .ok ({ st with
              messages := replaceFirstMessage st.messages
                (applySaveHook nowTs m).messageId (applySaveHook nowTs m) },
        applySaveHook nowTs m) := by
  simp [saveExistingMessage, h]

set_option maxHeartbeats 2000000 in
/-- The pre-save hook preserves schema validity. -/
theorem messageSchemaValid_applySaveHook (nowTs : Nat) (m : MessageRec)
    (h : messageSchemaValid m = true) :
    messageSchemaValid (applySaveHook nowTs m) = true := by
  simp only [messageSchemaValid, Bool.and_eq_true, decide_eq_true_eq] at h
  obtain ⟨⟨⟨⟨⟨⟨⟨⟨⟨⟨h1, h2⟩, h3⟩, h4⟩, h5⟩, h6⟩, h7⟩, h8⟩, h9⟩, h10⟩, h11⟩ := h
  have hid : m.messageId ≠ "" := by
    intro hc
    rw [hc] at h1
    simp at h1
  simp only [applySaveHook]
  repeat' split
  all_goals
    simp_all [messageSchemaValid]

theorem saveExistingMessage_ne_error (st : Store) (m : MessageRec) (nowTs : Nat) (e : String)
    (h : saveExistingMessage st m nowTs = .error e)
    (hv : messageSchemaValid (applySaveHook nowTs m) = true) : False := by
  simp only [saveExistingMessage, hv] at h
  simp at h

theorem applySaveHook_deliveredAt_some (nowTs : Nat) (m : MessageRec) (t : Nat)
    (h : m.deliveredAt = some t) : (applySaveHook nowTs m).deliveredAt = some t := by
  simp only [applySaveHook]
  repeat' split
  all_goals simp_all

theorem applySaveHook_sentAt_some (nowTs : Nat) (m : MessageRec) (t : Nat)
    (h : m.sentAt = some t) : (applySaveHook nowTs m).sentAt = some t := by
  simp only [applySaveHook]
  repeat' split
  all_goals simp_all

theorem applySaveHook_readAt_some (nowTs : Nat) (m : MessageRec) (t : Nat)
    (h : m.readAt = some t) : (applySaveHook nowTs m).readAt = some t := by
  simp only [applySaveHook]
  repeat' split
  all_goals simp_all

theorem applySaveHook_failedAt (nowTs : Nat) (m : MessageRec) :
    (applySaveHook nowTs m).failedAt = m.failedAt := by
  simp only [applySaveHook]
  repeat' split
  all_goals simp_all

theorem findMessage_set_messages (stx : Store) (l : List MessageRec) (mid : String) :
    findMessage { stx with messages := l } mid =
      List.find? (fun x => x.messageId = mid) l := rfl

theorem stmMessages_read (st : Store) (c : Prop) [Decidable c] (w : String) :
    (if c then resetUnreadCount st w else st).messages = st.messages := by
  split <;> rfl

/-- C8 (amended): per-status timestamps are last-write-wins — a status
event for a stored message overwrites the metadata timestamp matching its
status (`sentAt`/`deliveredAt`/`readAt`/`failedAt`) with the event's own
timestamp, whatever was recorded before (the source assigns each of the
four unconditionally; no already-set check exists). -/
theorem statusTimestampLastWriteWins (cfg : Config) (st : Store) (ev : StatusEvent)
    (nowTs : Nat) (m : MessageRec) (t : Nat)
    (hm : findMessage st ev.id = some m)
    (hst : ev.status = "sent" ∨ ev.status = "delivered" ∨ ev.status = "read" ∨
      ev.status = "failed")
    (hts : jsParseTs ev.timestamp = some t)
    (hvalid : messageSchemaValid { m with status := ev.status } = true) :
    ∃ m2, findMessage (updateMessageStatus cfg st ev nowTs).1 ev.id = some m2 ∧
      (ev.status = "sent" → m2.sentAt = some t) ∧
      (ev.status = "delivered" → m2.deliveredAt = some t) ∧
      (ev.status = "read" → m2.readAt = some t) ∧
      (ev.status = "failed" → m2.failedAt = some t) := by
  have hmid : m.messageId = ev.id := by
    have := List.find?_some hm
    simpa using this
  have hidlen : 3 ≤ m.messageId.length := by
    simp only [messageSchemaValid, Bool.and_eq_true, decide_eq_true_eq] at hvalid
    exact hvalid.1.1.1.1.1.1.1.1.1.1
  have hidne : m.messageId ≠ "" := by
    intro hcon
    rw [hcon] at hidlen
    simp at hidlen
  rcases hst with hS | hS | hS | hS
  all_goals rw [hS] at hvalid ⊢
  all_goals simp [updateMessageStatus, hm, hS, hts]
  all_goals split
  case inl.h_1 | inr.inl.h_1 | inr.inr.inl.h_1 | inr.inr.inr.h_1 =>
    rename_i e heq
    exfalso
    apply saveExistingMessage_ne_error _ _ _ _ heq
    apply messageSchemaValid_applySaveHook
    simp only [messageSchemaValid, apply_ite MessageRec.messageId, apply_ite MessageRec.waId,
      apply_ite MessageRec.fromNumber, apply_ite MessageRec.toNumber, apply_ite MessageRec.text,
      apply_ite MessageRec.body, apply_ite MessageRec.ty, apply_ite MessageRec.messageType,
      apply_ite MessageRec.status, apply_ite MessageRec.timestamp, ite_self] at hvalid ⊢
    exact hvalid
  all_goals
    rename_i st2 saved heq
  all_goals
    obtain ⟨hsaved, hst2⟩ := saveExistingMessage_ok _ _ _ _ _ heq
  all_goals
    have hsid : saved.messageId = ev.id := by
      rw [hsaved, applySaveHook_messageId]
      · simp only [apply_ite MessageRec.messageId, ite_self]
        exact hmid
      · simp only [apply_ite MessageRec.messageId, ite_self]
        exact hidne
  all_goals refine ⟨saved, ?_, ?_⟩
  case inl.h_2.intro.refine_1 | inr.inl.h_2.intro.refine_1 | inr.inr.inl.h_2.intro.refine_1
      | inr.inr.inr.h_2.intro.refine_1 =>
    subst hst2
    rw [findMessage_set_messages]
    try rw [stmMessages_read]
    rw [hsid]
    apply findMessage_replaceFirst
    · rw [show (List.find? (fun x => x.messageId = ev.id) st.messages) = findMessage st ev.id
          from rfl, hm]
      rfl
    · exact hsid
  case inl.h_2.intro.refine_2 =>
    rw [hsaved]
    apply applySaveHook_sentAt_some
    simp only [apply_ite MessageRec.sentAt, ite_self]
  case inr.inl.h_2.intro.refine_2 =>
    rw [hsaved]
    apply applySaveHook_deliveredAt_some
    simp only [apply_ite MessageRec.deliveredAt, ite_self]
  case inr.inr.inl.h_2.intro.refine_2 =>
    rw [hsaved]
    apply applySaveHook_readAt_some
    simp only [apply_ite MessageRec.readAt, ite_self]
  case inr.inr.inr.h_2.intro.refine_2 =>
    rw [hsaved, applySaveHook_failedAt]
    try simp only [apply_ite MessageRec.failedAt, ite_self]

/-- C8 witness: a message whose `deliveredAt` was 200000 ends at the new
event's 300000, and a message whose `failedAt` was 100000 ends at a later
failed event's 400000. -/
theorem statusTimestampLastWriteWins_witness :
    (∃ m2, findMessage (updateMessageStatus defaultConfig
      { messages := [{ messageId := "wamid.c8b", waId := "919937320320"
                       fromNumber := "918329446654", toNumber := "919937320320"
                       text := "Hi", body := "Hi", ty := "outgoing", direction := "outbound"
                       fromMe := true, status := "sent", timestamp := some 1700000000000
                       messageType := "text", deliveredAt := some 200000 }] }
      { id := "wamid.c8b", status := "delivered", timestamp := some "300" } 0).1
      "wamid.c8b" = some m2 ∧ m2.deliveredAt = some 300000) ∧
    (∃ m2, findMessage (updateMessageStatus defaultConfig
      { messages := [{ messageId := "wamid.c8c", waId := "919937320320"
                       fromNumber := "918329446654", toNumber := "919937320320"
                       text := "Hi", body := "Hi", ty := "outgoing", direction := "outbound"
                       fromMe := true, status := "sent", timestamp := some 1700000000000
                       messageType := "text", failedAt := some 100000 }] }
      { id := "wamid.c8c", status := "failed", timestamp := some "400" } 0).1
      "wamid.c8c" = some m2 ∧ m2.failedAt = some 400000) := by
  constructor
  · obtain ⟨m2, hfind, _, hDel, _, _⟩ := statusTimestampLastWriteWins defaultConfig
      { messages := [{ messageId := "wamid.c8b", waId := "919937320320"
                       fromNumber := "918329446654", toNumber := "919937320320"
                       text := "Hi", body := "Hi", ty := "outgoing", direction := "outbound"
                       fromMe := true, status := "sent", timestamp := some 1700000000000
                       messageType := "text", deliveredAt := some 200000 }] }
      { id := "wamid.c8b", status := "delivered", timestamp := some "300" } 0
      { messageId := "wamid.c8b", waId := "919937320320"
        fromNumber := "918329446654", toNumber := "919937320320"
        text := "Hi", body := "Hi", ty := "outgoing", direction := "outbound"
        fromMe := true, status := "sent", timestamp := some 1700000000000
        messageType := "text", deliveredAt := some 200000 }
      300000 (by decide) (Or.inr (Or.inl rfl)) (by decide) (by decide)
    exact ⟨m2, hfind, hDel rfl⟩
  · obtain ⟨m2, hfind, _, _, _, hF⟩ := statusTimestampLastWriteWins defaultConfig
      { messages := [{ messageId := "wamid.c8c", waId := "919937320320"
                       fromNumber := "918329446654", toNumber := "919937320320"
                       text := "Hi", body := "Hi", ty := "outgoing", direction := "outbound"
                       fromMe := true, status := "sent", timestamp := some 1700000000000
                       messageType := "text", failedAt := some 100000 }] }
      { id := "wamid.c8c", status := "failed", timestamp := some "400" } 0
      { messageId := "wamid.c8c", waId := "919937320320"
        fromNumber := "918329446654", toNumber := "919937320320"
        text := "Hi", body := "Hi", ty := "outgoing", direction := "outbound"
        fromMe := true, status := "sent", timestamp := some 1700000000000
        messageType := "text", failedAt := some 100000 }
      400000 (by decide) (Or.inr (Or.inr (Or.inr rfl))) (by decide) (by decide)
    exact ⟨m2, hfind, hF rfl⟩

/-- C8 counterexample: the recorded `delivered` timestamp of a stored
message (200000) is changed to 300000 by a later event with the same
status, refuting first-write-wins. -/
theorem statusTimestamp_counterexample :
    ((findMessage
        { messages := [{ messageId := "wamid.c8", waId := "919937320320"
                         fromNumber := "918329446654", toNumber := "919937320320"
                         text := "Hi", body := "Hi", ty := "outgoing", direction := "outbound"
                         fromMe := true, status := "delivered", timestamp := some 1700000000000
                         messageType := "text", deliveredAt := some 200000 }] }
        "wamid.c8").map (fun x => x.deliveredAt) = some (some 200000)) ∧
    ((findMessage (updateMessageStatus defaultConfig
        { messages := [{ messageId := "wamid.c8", waId := "919937320320"
                         fromNumber := "918329446654", toNumber := "919937320320"
                         text := "Hi", body := "Hi", ty := "outgoing", direction := "outbound"
                         fromMe := true, status := "delivered", timestamp := some 1700000000000
                         messageType := "text", deliveredAt := some 200000 }] }
        { id := "wamid.c8", status := "delivered", timestamp := some "300" } 0).1
        "wamid.c8").map (fun x => x.deliveredAt) = some (some 300000)) ∧
    (some (200000 : Nat) ≠ some 300000) := by
  refine ⟨by rfl, by rfl, by decide⟩

/-- The spec's §3 invariant: every stored message has a contact with the
same `waId`. -/
def storeInv (st : Store) : Prop :=
  ∀ m ∈ st.messages, ∃ c ∈ st.contacts, c.waId = m.waId

theorem ensureContactExists_hasKey_mono (st : Store) (w nm : Option String) (nowTs : Nat)
    (k : String) (h : ∃ c ∈ st.contacts, c.waId = k) :
    ∃ c ∈ (ensureContactExists st w nm nowTs).contacts, c.waId = k := by
  simp only [ensureContactExists]
  split
  · exact updateFirstContact_hasKey _ _ _ _ (fun c => rfl) h
  · rcases h with ⟨c, hc, hk⟩
    exact ⟨c, List.mem_append_left _ hc, hk⟩

theorem ensureContactExists_hasKey_self (st : Store) (w nm : Option String) (nowTs : Nat) :
    ∃ c ∈ (ensureContactExists st w nm nowTs).contacts,
      c.waId = (formatPhoneNumber w).getD "" := by
  simp only [ensureContactExists]
  split
  · rename_i c heq
    exact updateFirstContact_hasKey st.contacts _ _ _ (fun c => rfl)
      ⟨c, List.mem_of_find?_eq_some heq, by simpa using List.find?_some heq⟩
  · exact ⟨_, List.mem_append_right _ (List.mem_singleton_self _), rfl⟩

theorem updateContactLastMessage_hasKey_mono (st : Store) (w lm : String) (ts : Option Nat)
    (inc : Nat) (k : String) (h : ∃ c ∈ st.contacts, c.waId = k) :
    ∃ c ∈ (updateContactLastMessage st w lm ts inc).contacts, c.waId = k := by
  simp only [updateContactLastMessage]
  split
  · exact updateFirstContact_hasKey _ _ _ _ (fun c => rfl) h
  · rcases h with ⟨c, hc, hk⟩
    exact ⟨c, List.mem_append_left _ hc, hk⟩

theorem formatPhoneNumber_of_valid (s : String) (h : isValidWaId (some s) = true) :
    ∃ v, formatPhoneNumber (some s) = some v ∧ v ≠ "" := by
  have hs : s ≠ "" := by
    intro hc
    rw [hc] at h
    simp [isValidWaId] at h
  have hlen : 10 ≤ (digitsOnly s).length := by
    simp only [isValidWaId, hs, ite_false, if_neg, Bool.and_eq_true, decide_eq_true_eq] at h
    exact h.1.1.1
  have hne : digitsOnly s ≠ "" := by
    intro hc
    rw [hc] at hlen
    simp at hlen
  simp only [formatPhoneNumber, hs, ite_false, if_neg]
  split
  · refine ⟨_, rfl, ?_⟩
    intro hc
    have := congrArg String.length hc
    rw [String.length_append, show ("91" : String).length = 2 from rfl] at this
    simp at this
  · split
    · simp_all
    · exact ⟨_, rfl, hne⟩

/-- C5 (amended): message processing preserves the invariant — every
message stored through `processMessage` has a contact with the same `waId`,
because `ensureContactExists` runs on the (stable) formatted id before the
message insert. The status-event placeholder path does NOT preserve it. -/
theorem processMessage_storeInv (cfg : Config) (st : Store) (msg : MsgData)
    (md : Option Metadata) (pid : Option String) (rand : Bool) (nowTs : Nat)
    (h : storeInv st) :
    storeInv (processMessage cfg st msg md pid rand nowTs).1 := by
  rcases h1 : findMessage st msg.id with _ | m0
  · rcases h2 : detectMessageDirection cfg msg md pid rand nowTs with e | d
    · have hred : (processMessage cfg st msg md pid rand nowTs).1 = st := by
        simp [processMessage, h1, h2]
      rw [hred]
      exact h
    · by_cases h3 : d.waId ≠ "" ∧ isValidWaId (some d.waId) = true
      · obtain ⟨v, hv, hvne⟩ := formatPhoneNumber_of_valid d.waId h3.2
        have hfix : formatPhoneNumber (some v) = some v :=
          formatPhoneNumber_fix d.waId v hv hvne
        simp only [processMessage, h1, h2]
        rw [if_neg (not_not_intro h3)]
        split
        · rename_i e heq
          intro m hm
          rw [ensureContactExists_messages] at hm
          exact ensureContactExists_hasKey_mono _ _ _ _ _ (h m hm)
        · rename_i st2 saved heq
          obtain ⟨hsaved, hfind, hst2⟩ := saveNewMessage_ok _ _ _ _ _ heq
          subst hst2
          intro m hm
          simp only [updateContactLastMessage_messages,
            ensureContactExists_messages] at hm
          rw [List.mem_append] at hm
          have hkey : ∃ c ∈ (ensureContactExists st (some ((formatPhoneNumber (some d.waId)).getD ""))
              (some ("Contact " ++ (formatPhoneNumber (some d.waId)).getD "")) nowTs).contacts,
              c.waId = m.waId := by
            rcases hm with hm | hm
            · exact ensureContactExists_hasKey_mono _ _ _ _ _ (h m hm)
            · rw [List.mem_singleton] at hm
              subst hm
              rw [hsaved, applySaveHook_waId]
              show ∃ c ∈ _, c.waId = (formatPhoneNumber (some d.waId)).getD ""
              rw [hv]
              simp only [Option.getD_some]
              have hself := ensureContactExists_hasKey_self st (some v)
                (some ("Contact " ++ v)) nowTs
              rw [hfix] at hself
              simpa using hself
          exact updateContactLastMessage_hasKey_mono _ _ _ _ _ _ hkey
      · have hred : (processMessage cfg st msg md pid rand nowTs).1 = st := by
          simp [processMessage, h1, h2, h3]
        rw [hred]
        exact h
  · have hred : (processMessage cfg st msg md pid rand nowTs).1 = st := by
      simp [processMessage, h1]
    rw [hred]
    exact h

/-- C5 witness: the invariant holds on the empty store and after one
concrete incoming message. -/
theorem processMessage_storeInv_witness :
    storeInv ({ } : Store) ∧
    storeInv (processMessage defaultConfig { }
      { id := "wamid.c5w", fromNum := some "919937320320", toNum := some "918329446654"
        timestamp := some "1700000000", text := some "Hi" } none none false 0).1 :=
  ⟨by intro m hm; simp at hm,
   processMessage_storeInv defaultConfig { }
     { id := "wamid.c5w", fromNum := some "919937320320", toNum := some "918329446654"
       timestamp := some "1700000000", text := some "Hi" } none none false 0
     (by intro m hm; simp at hm)⟩

/-- C5 counterexample: a `delivered` status event for an unknown id creates
a placeholder message with `waId = "14155550100"` while the contacts
collection stays empty, so a stored Message exists with no Contact of the
same `waId`. -/
theorem contactInvariant_counterexample :
    ((updateMessageStatus defaultConfig { }
        { id := "wamid.c5", status := "delivered", recipient_id := some "14155550100"
          timestamp := some "1700000000" } 0).1.contacts = []) ∧
    ¬ storeInv (updateMessageStatus defaultConfig { }
        { id := "wamid.c5", status := "delivered", recipient_id := some "14155550100"
          timestamp := some "1700000000" } 0).1 := by
  refine ⟨by rfl, ?_⟩
  intro hinv
  rcases (show ∃ m ∈ (updateMessageStatus defaultConfig { }
      { id := "wamid.c5", status := "delivered", recipient_id := some "14155550100"
        timestamp := some "1700000000" } 0).1.messages,
      ∀ c ∈ (updateMessageStatus defaultConfig { }
        { id := "wamid.c5", status := "delivered", recipient_id := some "14155550100"
          timestamp := some "1700000000" } 0).1.contacts, ¬ c.waId = m.waId by decide)
    with ⟨m, hm, hall⟩
  rcases hinv m hm with ⟨c, hc, hceq⟩
  exact hall c hc hceq

theorem saveNewMessage_ne_error (st : Store) (m : MessageRec) (nowTs : Nat) (e : String)
    (h : saveNewMessage st m nowTs = .error e)
    (hv : messageSchemaValid (applySaveHook nowTs m) = true)
    (hdup : findMessage st (applySaveHook nowTs m).messageId = none) : False := by
  simp only [saveNewMessage, hv, hdup] at h
  simp at h

theorem waIdSchemaOk_ne_empty (w : String) (h : waIdSchemaOk w = true) : w ≠ "" := by
  intro hc
  rw [hc] at h
  simp [waIdSchemaOk] at h

theorem mkPlaceholder_valid (cfg : Config) (ev : StatusEvent)
    (h5 : 3 ≤ ev.id.length)
    (h6 : ev.status ∈ statusEnum)
    (h7 : waIdSchemaOk ((formatPhoneNumber ev.recipient_id).getD "") = true)
    (h8 : jsParseTs ev.timestamp ≠ none)
    (h9 : cfg.businessPhoneNumbers.head?.getD "" ≠ "") :
    messageSchemaValid (mkPlaceholder cfg ev) = true := by
  have hfw := waIdSchemaOk_ne_empty _ h7
  simp [mkPlaceholder, messageSchemaValid, h5, h6, h7, h8, h9, hfw]
  decide

set_option maxHeartbeats 2000000 in
theorem applySaveHook_mkPlaceholder_fields (cfg : Config) (ev : StatusEvent) (nowTs : Nat)
    (hid : ev.id ≠ "") :
    (applySaveHook nowTs (mkPlaceholder cfg ev)).messageId = ev.id ∧
    (applySaveHook nowTs (mkPlaceholder cfg ev)).status = ev.status ∧
    (applySaveHook nowTs (mkPlaceholder cfg ev)).ty = "outgoing" ∧
    (applySaveHook nowTs (mkPlaceholder cfg ev)).direction = "outbound" ∧
    (applySaveHook nowTs (mkPlaceholder cfg ev)).messageType = "text" ∧
    (applySaveHook nowTs (mkPlaceholder cfg ev)).body =
      "[Message content not available - status only]" := by
  simp only [applySaveHook, mkPlaceholder]
  repeat' split
  all_goals simp_all

/-- C3 (amended): a non-`failed` status event whose ids match no stored
message AND which carries a `recipient_id` (with schema-valid formatted
number, an id of at least 3 characters, a schema status and a parseable
timestamp, under a configured business number) creates exactly one
placeholder: `messageId` = event id, `status` = event status, outgoing,
kind text, and body the source's hyphenated placeholder text. -/
theorem placeholderForUnknownStatus (cfg : Config) (st : Store) (ev : StatusEvent) (nowTs : Nat)
    (h1 : findMessage st ev.id = none)
    (h2 : strTruthy ev.meta_msg_id = true → findMessage st (ev.meta_msg_id.getD "") = none)
    (h3 : ev.status ≠ "failed")
    (h4 : strTruthy ev.recipient_id = true)
    (h5 : 3 ≤ ev.id.length)
    (h6 : ev.status ∈ statusEnum)
    (h7 : waIdSchemaOk ((formatPhoneNumber ev.recipient_id).getD "") = true)
    (h8 : jsParseTs ev.timestamp ≠ none)
    (h9 : cfg.businessPhoneNumbers.head?.getD "" ≠ "") :
    ∃ ph, (updateMessageStatus cfg st ev nowTs).2 = .ok (.placeholderCreated ph) ∧
      (updateMessageStatus cfg st ev nowTs).1.messages = st.messages ++ [ph] ∧
      ph.messageId = ev.id ∧ ph.status = ev.status ∧ ph.ty = "outgoing" ∧
      ph.direction = "outbound" ∧ ph.messageType = "text" ∧
      ph.body = "[Message content not available - status only]" := by
  have hid : ev.id ≠ "" := by
    intro hc
    rw [hc] at h5
    simp at h5
  have hfields := applySaveHook_mkPlaceholder_fields cfg ev nowTs hid
  have hv : messageSchemaValid (applySaveHook nowTs (mkPlaceholder cfg ev)) = true :=
    messageSchemaValid_applySaveHook nowTs _ (mkPlaceholder_valid cfg ev h5 h6 h7 h8 h9)
  have hdup : findMessage st (applySaveHook nowTs (mkPlaceholder cfg ev)).messageId = none := by
    rw [hfields.1]
    exact h1
  have hfound : (if strTruthy ev.meta_msg_id then findMessage st (ev.meta_msg_id.getD "")
      else none) = none := by
    split
    · exact h2 (by assumption)
    · rfl
  simp only [updateMessageStatus, h1, hfound]
  rw [if_pos ⟨h3, h4⟩]
  split
  · rename_i e heq
    exact absurd heq (fun hx => saveNewMessage_ne_error _ _ _ _ hx hv hdup)
  · rename_i st2 saved heq
    obtain ⟨hsaved, hfind, hst2⟩ := saveNewMessage_ok _ _ _ _ _ heq
    subst hst2
    subst hsaved
    exact ⟨_, rfl, rfl, hfields.1, hfields.2.1, hfields.2.2.1, hfields.2.2.2.1,
      hfields.2.2.2.2.1, hfields.2.2.2.2.2⟩

/-- C3 witness: the spec scenario — `delivered` for unknown id with
`recipient_id = "14155550100"` creates exactly the documented placeholder. -/
theorem placeholderForUnknownStatus_witness :
    ∃ ph, (updateMessageStatus defaultConfig { }
        { id := "wamid.status1", status := "delivered", recipient_id := some "14155550100"
          timestamp := some "1700000000" } 0).2 = .ok (.placeholderCreated ph) ∧
      (updateMessageStatus defaultConfig { }
        { id := "wamid.status1", status := "delivered", recipient_id := some "14155550100"
          timestamp := some "1700000000" } 0).1.messages = ({ } : Store).messages ++ [ph] ∧
      ph.messageId = "wamid.status1" ∧ ph.status = "delivered" ∧ ph.ty = "outgoing" ∧
      ph.direction = "outbound" ∧ ph.messageType = "text" ∧
      ph.body = "[Message content not available - status only]" :=
  placeholderForUnknownStatus defaultConfig { }
    { id := "wamid.status1", status := "delivered", recipient_id := some "14155550100"
      timestamp := some "1700000000" } 0
    (by decide) (by decide) (by decide) (by decide) (by decide) (by decide) (by decide)
    (by decide) (by decide)

/-- C3 counterexample: the placeholder body uses a plain hyphen, not the
em-dash text quoted in the claim; and an event without `recipient_id` is
dropped without any placeholder, contradicting the claim's "for every
status event". -/
theorem placeholderBody_counterexample :
    ((updateMessageStatus defaultConfig { }
        { id := "wamid.c3", status := "delivered", recipient_id := some "14155550100"
          timestamp := some "1700000000" } 0).1.messages.map (fun m => m.body) =
      ["[Message content not available - status only]"]) ∧
    ("[Message content not available - status only]" : String) ≠
      "[Message content not available — status only]" ∧
    ((updateMessageStatus defaultConfig { }
        { id := "wamid.c3x", status := "delivered", recipient_id := none
          timestamp := some "1700000000" } 0) =
      ({ }, .ok .dropped)) :=
  ⟨by rfl, by decide, by rfl⟩

/-- The five-message batch of the partial-failure scenario: message #3 has
`from = null`, `to = null` (unresolvable direction), its siblings are
ordinary customer messages. -/
def failureScenarioMessages : List MsgData :=
  [{ id := "wamid.t001", fromNum := some "919937320320", toNum := some "918329446654"
     timestamp := some "1700000001", text := some "Hello one" },
   { id := "wamid.t002", fromNum := some "919937320320", toNum := some "918329446654"
     timestamp := some "1700000002", text := some "Hello two" },
   { id := "wamid.t003", timestamp := some "1700000003", text := some "Hello three" },
   { id := "wamid.t004", fromNum := some "919937320320", toNum := some "918329446654"
     timestamp := some "1700000004", text := some "Hello four" },
   { id := "wamid.t005", fromNum := some "919937320320", toNum := some "918329446654"
     timestamp := some "1700000005", text := some "Hello five" }]

/-- The scenario as one webhook payload (one entry, one `messages` change,
no payload id so that message #3 has no fallback hint). -/
def failureScenarioPayload : Payload :=
  { pid := none
    entry := some [{ changes := [{ field := "messages"
                                   value := { messages := some failureScenarioMessages } }] }] }

/-- C6: per-item failures are isolated — in a batch of 5 messages where #3
has an unresolvable direction, the batch result reports 4 successes and 1
failure, messages #1, #2, #4, #5 are all stored, #3 is not, and the payload
as a whole still processes successfully. -/
theorem batchFailureIsolation :
    ((processMessagesChange defaultConfig { } { messages := some failureScenarioMessages }
        none false 7).2.map batchSuccessCount = [4]) ∧
    ((processMessagesChange defaultConfig { } { messages := some failureScenarioMessages }
        none false 7).2.map batchFailureCount = [1]) ∧
    ((processMessagesChange defaultConfig { } { messages := some failureScenarioMessages }
        none false 7).1.messages.map (fun m => m.messageId) =
      ["wamid.t001", "wamid.t002", "wamid.t004", "wamid.t005"]) ∧
    ((processPayload defaultConfig { } failureScenarioPayload false 7).2 =
      .ok { processedItems := 1, errorCount := 0 }) ∧
    ((processPayload defaultConfig { } failureScenarioPayload false 7).1.messages.map
        (fun m => m.messageId) =
      ["wamid.t001", "wamid.t002", "wamid.t004", "wamid.t005"]) :=
  ⟨rfl, rfl, rfl, rfl, rfl⟩
